import Mathlib

/-!
# Settings handling of `CAddon` (xbmc/addons/Addon.cpp)

Shallow embedding of the settings façade of `CAddon`. The façade functions are
translated from `Addon.cpp`; the settings store `CAddonSettings`
(addons/settings/AddonSettings.cpp) and the XML/file collaborators are not part
of the fragment and are modelled from the specification, as noted on each
definition. All operations are pure state transformers over the façade state
`CAddon` against an explicit external environment `Env`.
-/

/-- The type tag of a setting: CSettingBool / CSettingInt / CSettingNumber /
CSettingString (settings/lib collaborator, a closed set of kinds). -/
inductive SType where
  | tb
  | ti
  | tn
  | ts
deriving DecidableEq

/-- A typed setting value. The floating-point payload of a "number" setting is
carried by an integer here: this fragment only stores and returns the payload
verbatim, it never computes with it, so the carrier is opaque. -/
inductive SVal where
  | b (v : Bool)
  | i (v : Int)
  | n (v : Int)
  | s (v : String)
deriving DecidableEq

/-- The runtime type tag of a value (CSetting::GetType). -/
def SVal.type : SVal → SType
  | .b _ => .tb
  | .i _ => .ti
  | .n _ => .tn
  | .s _ => .ts

/-- CSetting::ToString: the string serialization of a value. -/
def SVal.serialize : SVal → String
  | .b true => "true"
  | .b false => "false"
  | .i v => ToString.toString v
  | .n v => ToString.toString v
  | .s v => v

/-- One typed setting node: the schema default plus the current value
(CSetting collaborator; keys are unique within one store). -/
structure Setting where
  dflt : SVal
  value : SVal
deriving DecidableEq

/-- A parsed XML document (CXBMCTinyXML), abstracted to what the settings code
reads from it: whether it has a root element, the settings definitions a schema
parse would yield (`none` means CAddonSettings::Initialize fails on this
document), and the user values a value-load pass would apply. -/
structure XmlDoc where
  hasRoot : Bool
  schemaDefs : Option (List (String × SVal))
  values : List (String × SVal)
deriving DecidableEq

/-- The state of one file on disk. -/
inductive FileState where
  | absent
  | unparsable
  | parsed (d : XmlDoc)
deriving DecidableEq

/-- CFile::Exists on that file. -/
def FileState.fileExists : FileState → Bool
  | .absent => false
  | .unparsable => true
  | .parsed _ => true

/-- CXBMCTinyXML::LoadFile: succeeds only on a present, well-formed file. -/
def FileState.loadFile : FileState → Option XmlDoc
  | .parsed d => some d
  | .absent => none
  | .unparsable => none

/-- The external world a façade call runs against: the settings definition file
(`<addon path>/resources/settings.xml`), the user-values file
(`m_userSettingsPath`), whether CAddonSettings::Save succeeds on the current
store (abstract serialization failure surfaced to CAddon::SettingsToXML), and
whether a Python runtime is present (the HAS_PYTHON build flag). -/
structure Env where
  schemaFile : FileState
  userFile : FileState
  saveOk : Bool
  hasPython : Bool
deriving DecidableEq

/-- Modelled from the spec: the lifecycle states of the CAddonSettings store
(spec section 3: Uninitialized, Initialized, Loaded). `CAddonSettings` itself
(addons/settings/AddonSettings.cpp) is not part of this fragment. -/
inductive StoreState where
  | uninit
  | inited
  | loaded
deriving DecidableEq

/-- Modelled from the spec: the CAddonSettings store, a keyed mapping from
setting key to typed Setting node plus a lifecycle state (spec sections 3
and 4.1). -/
structure CAddonSettings where
  state : StoreState
  settings : List (String × Setting)
deriving DecidableEq

/-- A freshly constructed, uninitialized store. -/
def CAddonSettings.empty : CAddonSettings := ⟨StoreState.uninit, []⟩

/-- First-match keyed lookup in the settings table (keys are unique). -/
def findSetting (key : String) : List (String × Setting) → Option Setting
  | [] => none
  | p :: ps => if p.1 = key then some p.2 else findSetting key ps

/-- Modelled from the spec: IsInitialized; a store is initialized once a schema
parse succeeded, and Loaded implies Initialized (spec section 3). -/
def CAddonSettings.IsInitialized (st : CAddonSettings) : Bool :=
  match st.state with
  | StoreState.uninit => false
  | StoreState.inited => true
  | StoreState.loaded => true

/-- Modelled from the spec: IsLoaded (spec section 4.1). -/
def CAddonSettings.IsLoaded (st : CAddonSettings) : Bool :=
  match st.state with
  | StoreState.loaded => true
  | _ => false

/-- Modelled from the spec: GetSetting is exact-key lookup, null when absent
(spec section 4.1). -/
def CAddonSettings.GetSetting (st : CAddonSettings) (key : String) : Option Setting :=
  findSetting key st.settings

/-- Modelled from the spec: HasSettings is true iff the schema defines at least
one key (spec section 4.1). -/
def CAddonSettings.HasSettings (st : CAddonSettings) : Bool :=
  !st.settings.isEmpty

/-- Modelled from the spec: Initialize parses a schema document into typed
Setting nodes, each starting at its schema default; it fails on a malformed
schema and when the store is already initialized (spec section 4.1). -/
def CAddonSettings.Initialize (st : CAddonSettings) (doc : XmlDoc) :
    Option CAddonSettings :=
  if st.IsInitialized then none
  else
    match doc.schemaDefs with
    | none => none
    | some defs =>
        some ⟨StoreState.inited, defs.map (fun p => (p.1, ⟨p.2, p.2⟩))⟩

/-- Apply one user value onto the schema node of the same key: a key not
defined in the schema is ignored (the schema is authoritative), and a value
that does not deserialize into the node's own type leaves the node unchanged
(spec section 4.1, Load). -/
def applySingle (l : List (String × Setting)) (key : String) (v : SVal) :
    List (String × Setting) :=
  l.map (fun p => if p.1 = key ∧ p.2.value.type = v.type then (p.1, ⟨p.2.dflt, v⟩) else p)

/-- Fold all values of a document onto the settings table, in document order. -/
def applyValues : List (String × Setting) → List (String × SVal) → List (String × Setting)
  | l, [] => l
  | l, kv :: rest => applyValues (applySingle l kv.1 kv.2) rest

/-- Modelled from the spec: Load applies the values found in a document onto
existing schema nodes by key; unset keys keep their defaults; it fails when the
store is not initialized, and a completed load pass sets the one-way Loaded
marker (spec sections 4.1 and 4.2). -/
def CAddonSettings.Load (st : CAddonSettings) (doc : XmlDoc) : Option CAddonSettings :=
  if st.IsInitialized then some ⟨StoreState.loaded, applyValues st.settings doc.values⟩
  else none

/-- Modelled from the spec: Save serializes the current values into a document,
failing when the store is not initialized; `serializeOk` is the abstract
possibility of a serialization failure (spec section 4.1). -/
def CAddonSettings.Save (st : CAddonSettings) (serializeOk : Bool) : Bool :=
  st.IsInitialized && serializeOk

/-- Modelled from the spec: SetDefaults resets every node to its schema default
(spec section 4.1). -/
def CAddonSettings.SetDefaults (st : CAddonSettings) : CAddonSettings :=
  ⟨st.state, st.settings.map (fun p => (p.1, ⟨p.2.dflt, p.2.dflt⟩))⟩

/-- Modelled from the spec: the one-way SetLoaded marker (spec section 4.1). -/
def CAddonSettings.SetLoaded (st : CAddonSettings) : CAddonSettings :=
  ⟨StoreState.loaded, st.settings⟩

/-- Modelled from the spec: the store method that discards the schema so that a
forced reload rebuilds it from scratch (called at Addon.cpp:85; spec section
4.2, "first discards and rebuilds the schema"). -/
def CAddonSettings.Discard (_st : CAddonSettings) : CAddonSettings :=
  CAddonSettings.empty

/-- Modelled from the spec: AddSetting defines a previously unknown key at
runtime with the type inferred from the given value; it returns null when the
key already exists with a conflicting type (spec section 4.1). -/
def CAddonSettings.AddSetting (st : CAddonSettings) (key : String) (v : SVal) :
    Option (CAddonSettings × Setting) :=
  match st.GetSetting key with
  | some s => if s.value.type = v.type then some (st, s) else none
  | none => some (⟨st.state, st.settings ++ [(key, ⟨v, v⟩)]⟩, ⟨v, v⟩)

/-- CSetting::SetValue / FromString on the node stored under `key`: the C++
mutates the shared node in place, here the table entry is rewritten. -/
def CAddonSettings.setValue (st : CAddonSettings) (key : String) (v : SVal) :
    CAddonSettings :=
  ⟨st.state, st.settings.map (fun p => if p.1 = key then (p.1, ⟨p.2.dflt, v⟩) else p)⟩

/-- The failure condition of the typed getters: the key is absent from the
store, or present with a stored type different from the requested one. -/
def CAddonSettings.mismatchedOrAbsent (st : CAddonSettings) (key : String)
    (ty : SType) : Bool :=
  match st.GetSetting key with
  | none => true
  | some s => !(decide (s.value.type = ty))

/-- The per-add-on façade state: the lazily created settings store
(`m_settings`, null until first use), the sticky load-failure cache
(`m_loadSettingsFailed`) and the user-values marker (`m_hasUserSettings`)
(the Addon.h data members used by Addon.cpp). -/
structure CAddon where
  m_settings : Option CAddonSettings
  m_loadSettingsFailed : Bool
  m_hasUserSettings : Bool
deriving DecidableEq

/-- The externally visible side effects of one façade call: whether the schema
definition file was read (CXBMCTinyXML::LoadFile in CAddon::LoadSettings,
Addon.cpp:91), whether the user-values file was written (doc.SaveFile in
CAddon::SaveSettings, Addon.cpp:187), and the two change notifications issued
by CAddon::SaveSettings (Addon.cpp:192-194). -/
structure Effects where
  readSchema : Bool
  wroteUser : Bool
  notifyMgr : Bool
  notifyPython : Bool
deriving DecidableEq

/-- No externally visible effect. -/
def Effects.noEff : Effects := ⟨false, false, false, false⟩

/-- The schema definition file was read (and nothing else happened). -/
def Effects.schemaRead : Effects := ⟨true, false, false, false⟩

/-- CAddon::GetSettings (Addon.cpp:383-393) at its internal call sites: return
the store, creating it when `m_settings` is still null. The nested
`LoadSettings(false, true, id)` call the C++ getter performs on creation is a
no-op at every internal call site: either `m_settings` is already non-null
there, or `m_loadSettingsFailed` has just been set by the enclosing
LoadSettings (the re-entrancy guard at Addon.cpp:77/81), making the nested call
return false without touching any state; it is therefore not modelled. -/
def getStore (a : CAddon) : CAddonSettings × CAddon :=
  match a.m_settings with
  | some st => (st, a)
  | none => (CAddonSettings.empty, {a with m_settings := some CAddonSettings.empty})

/-- CAddon::SettingsInitialized (Addon.cpp:60-63). -/
def CAddon.SettingsInitialized (a : CAddon) : Bool :=
  match a.m_settings with
  | none => false
  | some st => st.IsInitialized

/-- CAddon::SettingsLoaded (Addon.cpp:65-68). -/
def CAddon.SettingsLoaded (a : CAddon) : Bool :=
  match a.m_settings with
  | none => false
  | some st => st.IsLoaded

/-- The value-load tail of CAddon::SettingsFromXML (Addon.cpp:353-366): Load
the document into the given store image; on failure the store (including any
SetDefaults already applied in place) stays, on success the store is replaced
and `m_hasUserSettings` is set. -/
def settingsFromXMLLoad (doc : XmlDoc) (st : CAddonSettings) (a : CAddon) :
    Bool × CAddon :=
  match st.Load doc with
  | none => (false, {a with m_settings := some st})
  | some st2 => (true, {a with m_settings := some st2, m_hasUserSettings := true})

/-- CAddon::SettingsFromXML (Addon.cpp:336-367). -/
def CAddon.SettingsFromXML (a : CAddon) (doc : XmlDoc) (loadDefaults : Bool) :
    Bool × CAddon :=
  if !doc.hasRoot then (false, a)
  else if a.SettingsInitialized then
    match getStore a with
    | (st, a1) =>
        settingsFromXMLLoad doc (if loadDefaults then st.SetDefaults else st) a1
  else
    match getStore a with
    | (st, a1) =>
      match st.Initialize doc with
      | none => (false, a1)
      | some st1 =>
          settingsFromXMLLoad doc
            (if loadDefaults then st1.SetDefaults else st1)
            {a1 with m_settings := some st1}

/-- The body of CAddon::LoadUserSettings after the initialized check and the
`m_hasUserSettings = false` reset (Addon.cpp:145-161). -/
def loadUserSettingsBody (env : Env) (a : CAddon) : Bool × CAddon :=
  if !env.userFile.fileExists then
    match getStore a with
    | (st, a1) => (true, {a1 with m_settings := some st.SetLoaded})
  else
    match env.userFile.loadFile with
    | none => (false, a)
    | some doc => a.SettingsFromXML doc false

/-- CAddon::LoadUserSettings (Addon.cpp:138-162). -/
def CAddon.LoadUserSettings (a : CAddon) (env : Env) : Bool × CAddon :=
  if !a.SettingsInitialized then (false, a)
  else loadUserSettingsBody env {a with m_hasUserSettings := false}

/-- The force-reset step of CAddon::LoadSettings (Addon.cpp:84-85): discard the
schema when already initialized and forced. -/
def forceReset (force : Bool) (a : CAddon) : CAddon :=
  if a.SettingsInitialized && force then
    match getStore a with
    | (st, a1) => {a1 with m_settings := some st.Discard}
  else a

/-- The body of CAddon::LoadSettings after the early returns, running with
`m_loadSettingsFailed` already set (Addon.cpp:87-117): read and parse the
schema definition file, initialize the store from it, clear the failure cache
on success, and optionally continue into LoadUserSettings (whose result is
discarded). -/
def loadSettingsBody (env : Env) (loadUser : Bool) (a : CAddon) :
    Bool × CAddon × Effects :=
  match env.schemaFile.loadFile with
  | none => (false, a, Effects.schemaRead)
  | some doc =>
    match getStore a with
    | (st, a1) =>
      match st.Initialize doc with
      | none => (false, a1, Effects.schemaRead)
      | some st1 =>
        if loadUser then
          (true,
           (CAddon.LoadUserSettings
              {a1 with m_settings := some st1, m_loadSettingsFailed := false} env).2,
           Effects.schemaRead)
        else
          (true, {a1 with m_settings := some st1, m_loadSettingsFailed := false},
           Effects.schemaRead)

/-- CAddon::LoadSettings (Addon.cpp:70-118). -/
def CAddon.LoadSettings (a : CAddon) (env : Env) (force loadUser : Bool) :
    Bool × CAddon × Effects :=
  if a.SettingsInitialized && !force then (true, a, Effects.noEff)
  else if a.m_loadSettingsFailed then (false, a, Effects.noEff)
  else loadSettingsBody env loadUser (forceReset force {a with m_loadSettingsFailed := true})

/-- CAddon::HasSettings (Addon.cpp:55-58). -/
def CAddon.HasSettings (a : CAddon) (env : Env) : Bool × CAddon :=
  match a.LoadSettings env false true with
  | (false, a1, _) => (false, a1)
  | (true, a1, _) =>
    match a1.m_settings with
    | some st => (st.HasSettings, a1)
    | none => (false, a1)   -- unreachable: a successful load leaves a store in place

/-- CAddon::HasUserSettings (Addon.cpp:120-126). -/
def CAddon.HasUserSettings (a : CAddon) (env : Env) : Bool × CAddon :=
  match a.LoadSettings env false true with
  | (false, a1, _) => (false, a1)
  | (true, a1, _) => (a1.SettingsLoaded && a1.m_hasUserSettings, a1)

/-- CAddon::ReloadSettings (Addon.cpp:128-131). -/
def CAddon.ReloadSettings (a : CAddon) (env : Env) : Bool × CAddon × Effects :=
  a.LoadSettings env true true

/-- CAddon::ResetSettings (Addon.cpp:133-136): `m_settings.reset()` only; the
failure cache and the user-values marker are untouched. -/
def CAddon.ResetSettings (a : CAddon) : CAddon :=
  {a with m_settings := none}

/-- CAddon::HasSettingsToSave (Addon.cpp:164-167). -/
def CAddon.HasSettingsToSave (a : CAddon) : Bool :=
  a.SettingsLoaded

/-- CAddon::SettingsToXML (Addon.cpp:369-381). -/
def CAddon.SettingsToXML (a : CAddon) (env : Env) : Bool :=
  if !a.SettingsInitialized then false
  else
    match a.m_settings with
    | some st => st.Save env.saveOk
    | none => false   -- unreachable: SettingsInitialized implies a store exists

/-- CAddon::SaveSettings (Addon.cpp:169-196): a no-op when the store is not
loaded; otherwise serialize, writing the user-values file only when
serialization succeeded, then unconditionally set `m_hasUserSettings` and
notify the add-on manager and, when a Python runtime is present, that runtime.
Directory creation is an external filesystem effect not modelled. -/
def CAddon.SaveSettings (a : CAddon) (env : Env) : CAddon × Effects :=
  if !a.HasSettingsToSave then (a, Effects.noEff)
  else
    ({a with m_hasUserSettings := true},
     ⟨false, a.SettingsToXML env, true, env.hasPython⟩)

/-- CAddon::GetSetting (Addon.cpp:198-208). -/
def CAddon.GetSetting (a : CAddon) (env : Env) (key : String) : String × CAddon :=
  if key = "" then ("", a)
  else
    match a.LoadSettings env false true with
    | (false, a1, _) => ("", a1)
    | (true, a1, _) =>
      match a1.m_settings with
      | none => ("", a1)   -- unreachable: a successful load leaves a store in place
      | some st =>
        match st.GetSetting key with
        | some s => (s.value.serialize, a1)
        | none => ("", a1)

/-- The GetSettingValue<TSetting> template (Addon.cpp:210-225), generic over
the setting type tag. `none` models returning false with the caller's
out-parameter untouched. -/
def GetSettingValue (env : Env) (ty : SType) (key : String) (a : CAddon) :
    Option SVal × CAddon :=
  if key = "" then (none, a)
  else
    match a.HasSettings env with
    | (false, a1) => (none, a1)
    | (true, a1) =>
      match getStore a1 with
      | (st, a2) =>
        match st.GetSetting key with
        | none => (none, a2)
        | some s => if s.value.type = ty then (some s.value, a2) else (none, a2)

/-- CAddon::GetSettingBool (Addon.cpp:227-232); `value` is the caller's
out-parameter, returned unchanged when the template fails. -/
def CAddon.GetSettingBool (a : CAddon) (env : Env) (key : String) (value : Bool) :
    Bool × Bool × CAddon :=
  match GetSettingValue env SType.tb key a with
  | (some (SVal.b v), a1) => (true, v, a1)
  | (some _, a1) => (false, value, a1)   -- unreachable: the template checked the tag
  | (none, a1) => (false, value, a1)

/-- CAddon::GetSettingInt (Addon.cpp:234-239). -/
def CAddon.GetSettingInt (a : CAddon) (env : Env) (key : String) (value : Int) :
    Bool × Int × CAddon :=
  match GetSettingValue env SType.ti key a with
  | (some (SVal.i v), a1) => (true, v, a1)
  | (some _, a1) => (false, value, a1)   -- unreachable: the template checked the tag
  | (none, a1) => (false, value, a1)

/-- CAddon::GetSettingNumber (Addon.cpp:241-246); payload carrier as in SVal. -/
def CAddon.GetSettingNumber (a : CAddon) (env : Env) (key : String) (value : Int) :
    Bool × Int × CAddon :=
  match GetSettingValue env SType.tn key a with
  | (some (SVal.n v), a1) => (true, v, a1)
  | (some _, a1) => (false, value, a1)   -- unreachable: the template checked the tag
  | (none, a1) => (false, value, a1)

/-- CAddon::GetSettingString (Addon.cpp:248-253). -/
def CAddon.GetSettingString (a : CAddon) (env : Env) (key : String) (value : String) :
    Bool × String × CAddon :=
  match GetSettingValue env SType.ts key a with
  | (some (SVal.s v), a1) => (true, v, a1)
  | (some _, a1) => (false, value, a1)   -- unreachable: the template checked the tag
  | (none, a1) => (false, value, a1)

/-- The get-or-add step of UpdateSettingValue (Addon.cpp:288-300). -/
def getOrAdd (st : CAddonSettings) (key : String) (v : SVal) :
    Option (CAddonSettings × Setting) :=
  match st.GetSetting key with
  | some s => some (st, s)
  | none => st.AddSetting key v

/-- The UpdateSettingValue<TSetting> template (Addon.cpp:279-306), generic over
the value being written, whose tag is the template's TSetting type. When
AddSetting succeeded but the subsequent type check fails, the freshly added
node stays in the store (the C++ added it in place). -/
def UpdateSettingValue (env : Env) (key : String) (v : SVal) (a : CAddon) :
    Bool × CAddon :=
  if key = "" then (false, a)
  else
    match a.HasSettings env with
    | (false, a1) => (false, a1)
    | (true, a1) =>
      match getStore a1 with
      | (st, a2) =>
        match getOrAdd st key v with
        | none => (false, a2)
        | some (st1, s) =>
          if s.value.type = v.type then
            (true, {a2 with m_settings := some (st1.setValue key v)})
          else (false, {a2 with m_settings := some st1})

/-- CAddon::UpdateSettingBool (Addon.cpp:308-313). -/
def CAddon.UpdateSettingBool (a : CAddon) (env : Env) (key : String) (value : Bool) :
    Bool × CAddon :=
  UpdateSettingValue env key (SVal.b value) a

/-- CAddon::UpdateSettingInt (Addon.cpp:315-320). -/
def CAddon.UpdateSettingInt (a : CAddon) (env : Env) (key : String) (value : Int) :
    Bool × CAddon :=
  UpdateSettingValue env key (SVal.i value) a

/-- CAddon::UpdateSettingNumber (Addon.cpp:322-327); payload carrier as in SVal. -/
def CAddon.UpdateSettingNumber (a : CAddon) (env : Env) (key : String) (value : Int) :
    Bool × CAddon :=
  UpdateSettingValue env key (SVal.n value) a

/-- CAddon::UpdateSettingString (Addon.cpp:329-334). -/
def CAddon.UpdateSettingString (a : CAddon) (env : Env) (key : String) (value : String) :
    Bool × CAddon :=
  UpdateSettingValue env key (SVal.s value) a

/-! ## Concrete states used by counterexamples and witnesses -/

/-- A well-formed schema document defining one boolean key `k`, default true. -/
def docK : XmlDoc := ⟨true, some [("k", SVal.b true)], []⟩

/-- The store obtained from `docK`: initialized, `k` at its default. -/
def stK : CAddonSettings :=
  ⟨StoreState.inited, [("k", ⟨SVal.b true, SVal.b true⟩)]⟩

/-- An add-on whose store is initialized from `docK`. -/
def addonK : CAddon := ⟨some stK, false, false⟩

/-- `addonK` after user settings were loaded successfully at some earlier time. -/
def addonKUser : CAddon :=
  ⟨some ⟨StoreState.loaded, [("k", ⟨SVal.b true, SVal.b true⟩)]⟩, false, true⟩

/-- A freshly constructed add-on: no store, no cached failure. -/
def addonFresh : CAddon := ⟨none, false, false⟩

/-- An add-on whose previous schema-load attempt failed: the sticky
`m_loadSettingsFailed` cache is set and no store was built. -/
def addonFailed : CAddon := ⟨none, true, false⟩

/-- No files on disk at all. -/
def envNoFiles : Env := ⟨FileState.absent, FileState.absent, true, true⟩

/-- A valid schema file, no user-values file. -/
def envSchemaOnly : Env := ⟨FileState.parsed docK, FileState.absent, true, true⟩

/-- A valid schema file and a present but unparsable user-values file. -/
def envBadUser : Env := ⟨FileState.parsed docK, FileState.unparsable, true, true⟩

/-- A valid schema file, no user file, and a store whose XML serialization
fails. -/
def envNoSave : Env := ⟨FileState.parsed docK, FileState.absent, false, true⟩

/-! ## Helper lemmas -/

/-- An initialized store makes a non-forced LoadSettings a pure success
(Addon.cpp:74-75). -/
theorem loadSettings_of_init (env : Env) (u : Bool) (a : CAddon)
    (h : a.SettingsInitialized = true) :
    a.LoadSettings env false u = (true, a, Effects.noEff) := by
  simp [CAddon.LoadSettings, h]

/-- With the sticky failure cache set and no initialized store, LoadSettings
returns false at Addon.cpp:77-78 with no state change and no filesystem read,
for any value of `force`. -/
theorem loadSettings_of_failed (env : Env) (force u : Bool) (a : CAddon)
    (hf : a.m_loadSettingsFailed = true) (hi : a.SettingsInitialized = false) :
    a.LoadSettings env force u = (false, a, Effects.noEff) := by
  simp [CAddon.LoadSettings, hf, hi]

/-- With no schema file on disk and no initialized store, a non-forced
LoadSettings fails (either at the cache check or at the failed file read). -/
theorem loadSettings_no_schema (env : Env) (u : Bool) (a : CAddon)
    (hs : env.schemaFile = FileState.absent) (hi : a.SettingsInitialized = false) :
    (a.LoadSettings env false u).1 = false := by
  cases hf : a.m_loadSettingsFailed
  · simp [CAddon.LoadSettings, hi, hf, loadSettingsBody, forceReset, hs,
      FileState.loadFile]
  · simp [CAddon.LoadSettings, hi, hf]

/-! ## Claim C1 -/

/-- C1, counterexample: at a concrete add-on whose previous schema-load attempt
failed (`addonFailed`) and with a perfectly valid schema file on disk
(`envSchemaOnly`), `LoadSettings(force=true)` does NOT re-attempt
initialization: it returns false, performs no filesystem read
(`Effects.noEff`), and neither discards nor rebuilds anything (the state is
returned unchanged). The check of `m_loadSettingsFailed` at Addon.cpp:77 runs
before `force` is honoured, refuting the claim that a forced call re-attempts
after a cached failure. -/
theorem c1_force_reload_counterexample :
    CAddon.LoadSettings addonFailed envSchemaOnly true true =
      (false, addonFailed, Effects.noEff) := rfl

/-- C1, amended: for every add-on whose previous schema-load attempt failed
(failure cache set, schema not initialized), LoadSettings returns false without
re-attempting the filesystem read or re-parsing the schema, and this holds for
every value of `force`: the cached failure short-circuits forced calls too, so
forced reloads never re-attempt initialization after a failure. -/
theorem c1_sticky_failure_short_circuit (env : Env) (force u : Bool) (a : CAddon)
    (hf : a.m_loadSettingsFailed = true) (hi : a.SettingsInitialized = false) :
    a.LoadSettings env force u = (false, a, Effects.noEff) := by
  exact loadSettings_of_failed env force u a hf hi

/-- C1, witness: the amended theorem applied at a concrete failed add-on that
still holds an (uninitialized) store object, with `force = false`. -/
theorem c1_sticky_failure_short_circuit_witness :
    CAddon.LoadSettings ⟨some CAddonSettings.empty, true, true⟩ envSchemaOnly false true =
      (false, ⟨some CAddonSettings.empty, true, true⟩, Effects.noEff) :=
  c1_sticky_failure_short_circuit envSchemaOnly false true
    ⟨some CAddonSettings.empty, true, true⟩ rfl rfl

/-! ## Claim C2 -/

/-- C2: for every add-on with no schema definition file on disk (and no store
initialized by other means), HasSettings() returns false and GetSetting(key)
returns the empty string for every key, non-empty keys included. -/
theorem c2_no_schema_no_settings (env : Env) (a : CAddon) (key : String)
    (hs : env.schemaFile = FileState.absent) (hi : a.SettingsInitialized = false) :
    (a.HasSettings env).1 = false ∧ (a.GetSetting env key).1 = "" := by
  have hload := loadSettings_no_schema env true a hs hi
  rcases hres : a.LoadSettings env false true with ⟨ok, a1, e⟩
  rw [hres] at hload
  simp only at hload
  subst hload
  constructor
  · simp [CAddon.HasSettings, hres]
  · by_cases hk : key = ""
    · simp [CAddon.GetSetting, hk]
    · simp [CAddon.GetSetting, hk, hres]

/-- C2, witness: a fresh add-on against a world with no files at all, asked for
the non-empty key `k`. -/
theorem c2_no_schema_no_settings_witness :
    (addonFresh.HasSettings envNoFiles).1 = false ∧
      (addonFresh.GetSetting envNoFiles "k").1 = "" :=
  c2_no_schema_no_settings envNoFiles addonFresh "k" rfl rfl

/-! ## Claim C9 -/

/-- C9: ResetSettings discards only the in-memory store - afterwards
SettingsInitialized() and SettingsLoaded() are false - but keeps the cached
load-failure flag, so when the previous load attempt had failed, a subsequent
non-forced LoadSettings still returns false without re-reading the schema file
and without any state change. -/
theorem c9_reset_keeps_failure_cache (env : Env) (u : Bool) (a : CAddon) :
    a.ResetSettings.SettingsInitialized = false ∧
    a.ResetSettings.SettingsLoaded = false ∧
    a.ResetSettings.m_loadSettingsFailed = a.m_loadSettingsFailed ∧
    (a.m_loadSettingsFailed = true →
      a.ResetSettings.LoadSettings env false u =
        (false, a.ResetSettings, Effects.noEff)) := by
  refine ⟨rfl, rfl, rfl, fun hf => ?_⟩
  exact loadSettings_of_failed env false u a.ResetSettings hf rfl

/-- C9, witness: resetting `addonKUser` (which had loaded user settings) while
its failure flag is set, then loading without force, reads nothing. -/
theorem c9_reset_keeps_failure_cache_witness :
    CAddon.LoadSettings (CAddon.ResetSettings ⟨some stK, true, true⟩) envSchemaOnly
        false true =
      (false, CAddon.ResetSettings ⟨some stK, true, true⟩, Effects.noEff) :=
  (c9_reset_keeps_failure_cache envSchemaOnly true ⟨some stK, true, true⟩).2.2.2 rfl

/-! ## Claim C3 -/

/-- C3: with the schema initialized (all values at their schema defaults, as a
successful Initialize leaves them) and no user-values file on disk,
LoadUserSettings returns true, the store is marked Loaded with every setting
still at its schema default, and HasUserSettings() afterwards returns false. -/
theorem c3_no_user_file_loads_defaults (env : Env) (a : CAddon)
    (st : CAddonSettings)
    (hst : a.m_settings = some st) (hinit : st.IsInitialized = true)
    (hdef : ∀ p ∈ st.settings, p.2.value = p.2.dflt)
    (hfile : env.userFile = FileState.absent) :
    (a.LoadUserSettings env).1 = true ∧
    (a.LoadUserSettings env).2.SettingsLoaded = true ∧
    (a.LoadUserSettings env).2.m_settings = some st.SetLoaded ∧
    (∀ p ∈ st.SetLoaded.settings, p.2.value = p.2.dflt) ∧
    ((a.LoadUserSettings env).2.HasUserSettings env).1 = false := by
  obtain ⟨os, fl, hu⟩ := a
  change os = some st at hst
  subst hst
  have hres : CAddon.LoadUserSettings ⟨some st, fl, hu⟩ env =
      (true, ⟨some st.SetLoaded, fl, false⟩) := by
    simp [CAddon.LoadUserSettings, CAddon.SettingsInitialized, hinit,
      loadUserSettingsBody, hfile, FileState.fileExists, getStore]
  rw [hres]
  refine ⟨rfl, ?_, rfl, ?_, ?_⟩
  · simp [CAddon.SettingsLoaded, CAddonSettings.SetLoaded, CAddonSettings.IsLoaded]
  · simpa [CAddonSettings.SetLoaded] using hdef
  · have hres2 : CAddon.LoadSettings ⟨some st.SetLoaded, fl, false⟩ env false true =
        (true, ⟨some st.SetLoaded, fl, false⟩, Effects.noEff) := by
      refine loadSettings_of_init env true _ ?_
      simp [CAddon.SettingsInitialized, CAddonSettings.SetLoaded,
        CAddonSettings.IsInitialized]
    simp [CAddon.HasUserSettings, hres2]

/-- C3, witness: `addonK` (schema initialized from `docK`, the boolean key `k`
defaulting to true) with no user-values file. -/
theorem c3_no_user_file_loads_defaults_witness :
    (CAddon.LoadUserSettings addonK envSchemaOnly).1 = true :=
  (c3_no_user_file_loads_defaults envSchemaOnly addonK stK rfl rfl (by decide) rfl).1

/-! ## Claim C4 -/

/-- C4: with the schema initialized (state Initialized, not yet Loaded) and a
user-values file that exists but cannot be parsed, LoadUserSettings returns
false, SettingsLoaded() stays false, and the store is completely untouched, so
every setting keeps its current (schema-default) value - no partial mutation. -/
theorem c4_malformed_user_file_no_mutation (env : Env) (a : CAddon)
    (st : CAddonSettings)
    (hst : a.m_settings = some st) (hstate : st.state = StoreState.inited)
    (hfile : env.userFile = FileState.unparsable) :
    (a.LoadUserSettings env).1 = false ∧
    (a.LoadUserSettings env).2.SettingsLoaded = false ∧
    (a.LoadUserSettings env).2.m_settings = some st := by
  obtain ⟨os, fl, hu⟩ := a
  change os = some st at hst
  subst hst
  have hres : CAddon.LoadUserSettings ⟨some st, fl, hu⟩ env =
      (false, ⟨some st, fl, false⟩) := by
    simp [CAddon.LoadUserSettings, CAddon.SettingsInitialized,
      CAddonSettings.IsInitialized, hstate, loadUserSettingsBody, hfile,
      FileState.fileExists, FileState.loadFile]
  rw [hres]
  refine ⟨rfl, ?_, rfl⟩
  simp [CAddon.SettingsLoaded, CAddonSettings.IsLoaded, hstate]

/-- C4, witness: `addonK` against a present but unparsable user-values file. -/
theorem c4_malformed_user_file_no_mutation_witness :
    (CAddon.LoadUserSettings addonK envBadUser).1 = false :=
  (c4_malformed_user_file_no_mutation envBadUser addonK stK rfl rfl rfl).1

/-! ## Claim C10 -/

/-- C10: LoadUserSettings clears `m_hasUserSettings` right after the
initialized check and before touching the file, so after a failed
LoadUserSettings (parse failure) the flag is false and HasUserSettings()
returns false, even when user settings had been loaded successfully before. -/
theorem c10_user_flag_cleared_on_entry (env : Env) (a : CAddon)
    (st : CAddonSettings)
    (hst : a.m_settings = some st) (hinit : st.IsInitialized = true)
    (hfile : env.userFile = FileState.unparsable)
    (hprev : a.m_hasUserSettings = true) :
    (a.LoadUserSettings env).1 = false ∧
    (a.LoadUserSettings env).2.m_hasUserSettings = false ∧
    ((a.LoadUserSettings env).2.HasUserSettings env).1 = false := by
  obtain ⟨os, fl, hu⟩ := a
  change os = some st at hst
  change hu = true at hprev
  subst hst
  subst hprev
  have hres : CAddon.LoadUserSettings ⟨some st, fl, true⟩ env =
      (false, ⟨some st, fl, false⟩) := by
    simp [CAddon.LoadUserSettings, CAddon.SettingsInitialized, hinit,
      loadUserSettingsBody, hfile, FileState.fileExists, FileState.loadFile]
  rw [hres]
  have hres2 : CAddon.LoadSettings ⟨some st, fl, false⟩ env false true =
      (true, ⟨some st, fl, false⟩, Effects.noEff) := by
    refine loadSettings_of_init env true _ ?_
    simp [CAddon.SettingsInitialized, hinit]
  exact ⟨rfl, rfl, by simp [CAddon.HasUserSettings, hres2]⟩

/-- C10, witness: `addonKUser`, whose user settings were loaded earlier
(store Loaded, flag set), against a now-unparsable user-values file. -/
theorem c10_user_flag_cleared_on_entry_witness :
    (CAddon.LoadUserSettings addonKUser envBadUser).1 = false :=
  (c10_user_flag_cleared_on_entry envBadUser addonKUser
    ⟨StoreState.loaded, [("k", ⟨SVal.b true, SVal.b true⟩)]⟩ rfl rfl rfl rfl).1

/-! ## Claim C5 -/

/-- C5: for every key and every typed getter (T among bool, int, number,
string), if the key is absent from the store or the stored setting's type
differs from T, the getter returns false, leaves the caller's out-parameter
unchanged, and leaves the add-on state unchanged: no coercion, no partial
write. -/
theorem c5_typed_get_mismatch_frame (env : Env) (a : CAddon)
    (st : CAddonSettings) (key : String) (ty : SType)
    (bv : Bool) (iv nv : Int) (sv : String)
    (hst : a.m_settings = some st) (hinit : st.IsInitialized = true)
    (hmm : st.mismatchedOrAbsent key ty = true) :
    GetSettingValue env ty key a = (none, a) ∧
    (ty = SType.tb → a.GetSettingBool env key bv = (false, bv, a)) ∧
    (ty = SType.ti → a.GetSettingInt env key iv = (false, iv, a)) ∧
    (ty = SType.tn → a.GetSettingNumber env key nv = (false, nv, a)) ∧
    (ty = SType.ts → a.GetSettingString env key sv = (false, sv, a)) := by
  obtain ⟨os, fl, hu⟩ := a
  change os = some st at hst
  subst hst
  have hGV : GetSettingValue env ty key ⟨some st, fl, hu⟩ =
      (none, ⟨some st, fl, hu⟩) := by
    by_cases hk : key = ""
    · simp [GetSettingValue, hk]
    · have hLS : CAddon.LoadSettings ⟨some st, fl, hu⟩ env false true =
          (true, ⟨some st, fl, hu⟩, Effects.noEff) := by
        refine loadSettings_of_init env true _ ?_
        simp [CAddon.SettingsInitialized, hinit]
      cases hhs : st.HasSettings
      · simp [GetSettingValue, hk, CAddon.HasSettings, hLS, hhs]
      · cases hGet : st.GetSetting key with
        | none =>
          simp [GetSettingValue, hk, CAddon.HasSettings, hLS, hhs, getStore, hGet]
        | some s =>
          have hty : ¬s.value.type = ty := by
            simp [CAddonSettings.mismatchedOrAbsent, hGet] at hmm
            exact hmm
          simp [GetSettingValue, hk, CAddon.HasSettings, hLS, hhs, getStore,
            hGet, hty]
  refine ⟨hGV, fun h => ?_, fun h => ?_, fun h => ?_, fun h => ?_⟩
  · subst h; simp [CAddon.GetSettingBool, hGV]
  · subst h; simp [CAddon.GetSettingInt, hGV]
  · subst h; simp [CAddon.GetSettingNumber, hGV]
  · subst h; simp [CAddon.GetSettingString, hGV]

/-- C5, witness: `addonK` stores `k` as a boolean, so the int getter fails and
leaves its out-parameter (7) untouched. -/
theorem c5_typed_get_mismatch_frame_witness :
    CAddon.GetSettingInt addonK envSchemaOnly "k" 7 = (false, 7, addonK) :=
  (c5_typed_get_mismatch_frame envSchemaOnly addonK stK "k" SType.ti
    true 7 7 "x" rfl rfl rfl).2.2.1 rfl

/-! ## Claim C7 -/

/-- C7: GetSetting(key) returns the empty string when the key is empty or when
the settings cannot be loaded; otherwise it returns the string serialization of
the key's current value, or the empty string when the key is not defined in the
store the load left behind. -/
theorem c7_get_setting_string_contract (env : Env) (a : CAddon) (key : String)
    (st : CAddonSettings) (s : Setting) :
    (key = "" → (a.GetSetting env key).1 = "") ∧
    ((a.LoadSettings env false true).1 = false → (a.GetSetting env key).1 = "") ∧
    (¬key = "" → (a.LoadSettings env false true).1 = true →
      (a.LoadSettings env false true).2.1.m_settings = some st →
      st.GetSetting key = some s →
      (a.GetSetting env key).1 = s.value.serialize) ∧
    (¬key = "" → (a.LoadSettings env false true).1 = true →
      (a.LoadSettings env false true).2.1.m_settings = some st →
      st.GetSetting key = none →
      (a.GetSetting env key).1 = "") := by
  rcases hres : a.LoadSettings env false true with ⟨ok, a1, e⟩
  simp only
  refine ⟨fun hk => by simp [CAddon.GetSetting, hk], fun hok => ?_,
    fun hk hok hstore hget => ?_, fun hk hok hstore hget => ?_⟩
  · subst hok
    by_cases hk : key = ""
    · simp [CAddon.GetSetting, hk]
    · simp [CAddon.GetSetting, hk, hres]
  · subst hok
    simp [CAddon.GetSetting, hk, hres, hstore, hget]
  · subst hok
    simp [CAddon.GetSetting, hk, hres, hstore, hget]

/-- C7, witness: on `addonK` the current value of `k` serializes to "true". -/
theorem c7_get_setting_string_contract_witness :
    (CAddon.GetSetting addonK envSchemaOnly "k").1 = "true" :=
  (c7_get_setting_string_contract envSchemaOnly addonK "k" stK
      ⟨SVal.b true, SVal.b true⟩).2.2.1 (by decide) rfl rfl rfl

/-! ## Claim C8 -/

/-- C8: when SaveSettings runs on a loaded store but XML serialization fails,
the user-values file is not written, yet `m_hasUserSettings` is still set to
true and the add-on manager - and, exactly when a Python runtime is present,
that runtime - is still notified of the settings change. -/
theorem c8_save_failure_still_notifies (env : Env) (a : CAddon)
    (hl : a.SettingsLoaded = true) (hser : env.saveOk = false) :
    (a.SaveSettings env).2.wroteUser = false ∧
    (a.SaveSettings env).1.m_hasUserSettings = true ∧
    (a.SaveSettings env).2.notifyMgr = true ∧
    (a.SaveSettings env).2.notifyPython = env.hasPython := by
  have hx : a.SettingsToXML env = false := by
    unfold CAddon.SettingsToXML
    cases hos : a.m_settings with
    | none => simp
    | some st => simp [CAddonSettings.Save, hser]
  have hres : a.SaveSettings env =
      ({a with m_hasUserSettings := true}, ⟨false, false, true, env.hasPython⟩) := by
    simp [CAddon.SaveSettings, CAddon.HasSettingsToSave, hl, hx]
  rw [hres]
  exact ⟨rfl, rfl, rfl, rfl⟩

/-- C8, witness: an add-on with loaded user settings whose serialization fails
(`envNoSave`): nothing written, flag set, both notifications issued. -/
theorem c8_save_failure_still_notifies_witness :
    (CAddon.SaveSettings addonKUser envNoSave).2.wroteUser = false :=
  (c8_save_failure_still_notifies envNoSave addonKUser rfl rfl).1

/-! ## Claim C6 -/

/-- After appending a fresh node under an absent key and then rewriting that
key's value, lookup finds exactly the fresh node. -/
theorem findSetting_add_then_set (key : String) (v : SVal)
    (l : List (String × Setting)) (h : findSetting key l = none) :
    findSetting key
      ((l ++ [(key, Setting.mk v v)]).map
        (fun p : String × Setting =>
          if p.1 = key then (p.1, Setting.mk p.2.dflt v) else p)) =
      some (Setting.mk v v) := by
  induction l with
  | nil => simp [findSetting]
  | cons q l ih =>
    by_cases hq : q.1 = key
    · simp only [findSetting, if_pos hq] at h
      exact Option.noConfusion h
    · simp only [findSetting, if_neg hq] at h
      simp only [List.cons_append, List.map_cons, findSetting, if_neg hq]
      exact ih h

/-- C6: the typed update UpdateSettingValue, on a usable settings store and a
non-empty key: when the key does not exist it is auto-defined with the type
inferred from the written value and assigned that value (and the update
succeeds); when the key exists with a different type, the update returns false
and the add-on (store included) is completely unchanged. -/
theorem c6_typed_update_define_or_reject (env : Env) (a : CAddon)
    (st : CAddonSettings) (key : String) (v : SVal) (s : Setting)
    (hst : a.m_settings = some st) (hinit : st.IsInitialized = true)
    (hne : st.HasSettings = true) (hk : ¬key = "") :
    (st.GetSetting key = none →
      (UpdateSettingValue env key v a).1 = true ∧
      ∃ st2, (UpdateSettingValue env key v a).2.m_settings = some st2 ∧
        st2.GetSetting key = some ⟨v, v⟩) ∧
    (st.GetSetting key = some s → ¬s.value.type = v.type →
      UpdateSettingValue env key v a = (false, a)) := by
  obtain ⟨os, fl, hu⟩ := a
  change os = some st at hst
  subst hst
  have hLS : CAddon.LoadSettings ⟨some st, fl, hu⟩ env false true =
      (true, ⟨some st, fl, hu⟩, Effects.noEff) := by
    refine loadSettings_of_init env true _ ?_
    simp [CAddon.SettingsInitialized, hinit]
  have hHS : CAddon.HasSettings ⟨some st, fl, hu⟩ env =
      (true, ⟨some st, fl, hu⟩) := by
    simp [CAddon.HasSettings, hLS, hne]
  constructor
  · intro hget
    have hres : UpdateSettingValue env key v ⟨some st, fl, hu⟩ =
        (true, ⟨some ((⟨st.state, st.settings ++ [(key, ⟨v, v⟩)]⟩ :
            CAddonSettings).setValue key v), fl, hu⟩) := by
      simp [UpdateSettingValue, hk, hHS, getStore, getOrAdd, hget,
        CAddonSettings.AddSetting, SVal.type]
    rw [hres]
    refine ⟨rfl, _, rfl, ?_⟩
    simpa [CAddonSettings.GetSetting, CAddonSettings.setValue] using
      findSetting_add_then_set key v st.settings hget
  · intro hget hty
    simp [UpdateSettingValue, hk, hHS, getStore, getOrAdd, hget, hty]

/-- C6, witness: writing the string "v" to the schema-absent key "newkey" of
`addonK` succeeds by auto-defining it as a string setting (the spec section 8
scenario). -/
theorem c6_typed_update_define_or_reject_witness :
    (UpdateSettingValue envSchemaOnly "newkey" (SVal.s "v") addonK).1 = true :=
  ((c6_typed_update_define_or_reject envSchemaOnly addonK stK "newkey"
      (SVal.s "v") ⟨SVal.b true, SVal.b true⟩ rfl rfl rfl (by decide)).1 rfl).1
